import Mathlib

/-!
Verification of the GLES fixed-function bridge (GLESBridge.c).

This file gives a shallow embedding of the bridge state machines that the
specification talks about: the 4x4 matrix engine and its bounded stacks, the
enable/disable capability store, the alpha-test decision of the fragment
shader, the client-array descriptors with the scratch-buffer growth logic of
UploadClientArrays, the index scan MaxIndex, and the immediate-mode recorder.

Matrices are modelled over the rationals.  Every concrete claim checked below
only involves values and operations on which 32-bit IEEE arithmetic is exact
(sums and products of 0, 1, 2, small halves and hundredths), so the rational
model agrees with the float computation of the C source on those inputs.

The C source stores a 4x4 matrix as a flat array in column-major order: the
entry of row i and column j lives at m[j * 4 + i].  Here a matrix is the
function sending (i, j) to that entry, so the C expression a.m[k*4+row] is
written a row k.
-/

set_option maxHeartbeats 1000000

namespace GLESBridge

abbrev Mat4 := Fin 4 → Fin 4 → ℚ

/-- Writing the single cell m[col * 4 + row] of a matrix, as the C assignments
do. -/
def setEntry (m : Mat4) (row col : Fin 4) (v : ℚ) : Mat4 :=
  fun i j => if i = row ∧ j = col then v else m i j

/-- The all-zero matrix, i.e. the memset(out, 0, ...) in Mat4_Identity. -/
def Mat4_Zero : Mat4 := fun _ _ => 0

/-- Mat4_Identity: memset to zero, then m[0] = m[5] = m[10] = m[15] = 1. -/
def Mat4_Identity : Mat4 :=
  setEntry (setEntry (setEntry (setEntry Mat4_Zero 0 0 1) 1 1 1) 2 2 1) 3 3 1

/-- Mat4_Multiply: tmp.m[col*4+row] = sum over k of a.m[k*4+row] * b.m[col*4+k],
i.e. ordinary matrix multiplication in the row/column reading of the storage. -/
def Mat4_Multiply (a b : Mat4) : Mat4 :=
  fun row col => ∑ k : Fin 4, a row k * b k col

/-- Action of a matrix on a column vector (x, y, z, 1), keeping the first three
components of the result.  This is the standard reading of a column-major
fixed-function matrix applied to a point with w = 1. -/
def mapPoint (m : Mat4) (x y z : ℚ) : ℚ × ℚ × ℚ :=
  (m 0 0 * x + m 0 1 * y + m 0 2 * z + m 0 3,
   m 1 0 * x + m 1 1 * y + m 1 2 * z + m 1 3,
   m 2 0 * x + m 2 1 * y + m 2 2 * z + m 2 3)

-- -------------------------------------------------------------------------
-- Matrix stacks
-- -------------------------------------------------------------------------

def MATRIX_STACK_DEPTH : ℕ := 32

/-- A matrix stack.  The C struct is an array stack[32] with an index top; the
code only ever reads slots 0..top, so the stack is faithfully represented by
the list of live entries: top is the current top slot stack[top] and rest
holds stack[top-1], ..., stack[0]. -/
structure MatrixStack where
  top : Mat4
  rest : List Mat4

/-- The C index value top: one less than the number of live entries. -/
def topIndex (s : MatrixStack) : ℕ := s.rest.length

/-- Number of live entries of the stack (C index top, plus one). -/
def depth (s : MatrixStack) : ℕ := s.rest.length + 1

/-- MatStack_Init: slot 0 becomes the identity and top becomes 0. -/
def MatStack_Init : MatrixStack := ⟨Mat4_Identity, []⟩

/-- MatStack_Push: on overflow (top + 1 >= MATRIX_STACK_DEPTH) log and return
with the stack untouched; otherwise duplicate the top entry and increment
top. -/
def MatStack_Push (s : MatrixStack) : MatrixStack :=
  if MATRIX_STACK_DEPTH ≤ topIndex s + 1 then s
  else ⟨s.top, s.top :: s.rest⟩

/-- MatStack_Pop: on underflow (top <= 0, i.e. no entries below the top) log
and return with the stack untouched; otherwise decrement top. -/
def MatStack_Pop (s : MatrixStack) : MatrixStack :=
  match s with
  | ⟨_, []⟩ => s
  | ⟨_, m :: r⟩ => ⟨m, r⟩

/-- bridge_LoadIdentity on the active stack. -/
def bridge_LoadIdentity (s : MatrixStack) : MatrixStack :=
  ⟨Mat4_Identity, s.rest⟩

/-- bridge_LoadMatrixf on the active stack. -/
def bridge_LoadMatrixf (m : Mat4) (s : MatrixStack) : MatrixStack :=
  ⟨m, s.rest⟩

/-- bridge_MultMatrixf: the active top is replaced by top * m. -/
def bridge_MultMatrixf (m : Mat4) (s : MatrixStack) : MatrixStack :=
  ⟨Mat4_Multiply s.top m, s.rest⟩

/-- The translation matrix built by bridge_Translatef: identity with
m[12] = x, m[13] = y, m[14] = z. -/
def translateMat (x y z : ℚ) : Mat4 :=
  setEntry (setEntry (setEntry Mat4_Identity 0 3 x) 1 3 y) 2 3 z

/-- bridge_Translatef: multiply the translation matrix onto the active top. -/
def bridge_Translatef (x y z : ℚ) (s : MatrixStack) : MatrixStack :=
  bridge_MultMatrixf (translateMat x y z) s

/-- The matrix built by bridge_Ortho: identity with
m[0] = 2/(r-l), m[5] = 2/(t-b), m[10] = -2/(f-n),
m[12] = -(r+l)/(r-l), m[13] = -(t+b)/(t-b), m[14] = -(f+n)/(f-n). -/
def orthoMat (l r b t n f : ℚ) : Mat4 :=
  setEntry (setEntry (setEntry (setEntry (setEntry (setEntry Mat4_Identity
    0 0 (2 / (r - l)))
    1 1 (2 / (t - b)))
    2 2 (-2 / (f - n)))
    0 3 (-(r + l) / (r - l)))
    1 3 (-(t + b) / (t - b)))
    2 3 (-(f + n) / (f - n))

/-- bridge_Ortho: multiply the ortho matrix onto the active top. -/
def bridge_Ortho (l r b t n f : ℚ) (s : MatrixStack) : MatrixStack :=
  bridge_MultMatrixf (orthoMat l r b t n f) s

/-- The operations that mutate a matrix stack (push, pop, load, and the
multiply family; translate, rotate, scale, ortho and frustum all funnel
through bridge_MultMatrixf). -/
inductive MatOp where
  | push
  | pop
  | loadIdentity
  | loadMatrix (m : Mat4)
  | multMatrix (m : Mat4)

def applyMatOp (op : MatOp) (s : MatrixStack) : MatrixStack :=
  match op with
  | .push => MatStack_Push s
  | .pop => MatStack_Pop s
  | .loadIdentity => bridge_LoadIdentity s
  | .loadMatrix m => bridge_LoadMatrixf m s
  | .multMatrix m => bridge_MultMatrixf m s

def applyMatOps (ops : List MatOp) (s : MatrixStack) : MatrixStack :=
  ops.foldl (fun s op => applyMatOp op s) s

theorem Mat4_Multiply_identity_left (m : Mat4) :
    Mat4_Multiply Mat4_Identity m = m := by
  funext i j
  simp only [Mat4_Multiply, Fin.sum_univ_four]
  fin_cases i <;>
    simp [Mat4_Identity, Mat4_Zero, setEntry]

-- -------------------------------------------------------------------------
-- Alpha test
-- -------------------------------------------------------------------------

/-- The gAlphaTest global: comparison function token, reference value,
enabled flag. -/
structure AlphaTestState where
  func : ℕ
  ref : ℚ
  enabled : Bool

/-- bridge_AlphaFunc stores the function token and the reference value. -/
def bridge_AlphaFunc (func : ℕ) (ref : ℚ) (st : AlphaTestState) : AlphaTestState :=
  ⟨func, ref, st.enabled⟩

/-- The pass decision of the fragment shader (kFragmentShaderSrc): an if-else
chain over u_alphaFunc, with pass defaulting to true for unknown tokens. -/
def alphaTestPass (func : ℕ) (a r : ℚ) : Bool :=
  if func = 0x0207 then true
  else if func = 0x0200 then false
  else if func = 0x0201 then decide (a < r)
  else if func = 0x0202 then decide (a = r)
  else if func = 0x0203 then decide (a ≤ r)
  else if func = 0x0204 then decide (r < a)
  else if func = 0x0205 then decide (¬ a = r)
  else if func = 0x0206 then decide (r ≤ a)
  else true

/-- The shader discards the fragment exactly when the alpha test is enabled
and the pass decision is false. -/
def fragmentAlphaDiscard (st : AlphaTestState) (a : ℚ) : Bool :=
  st.enabled && !(alphaTestPass st.func a st.ref)

-- -------------------------------------------------------------------------
-- Client arrays, scratch buffer, capability store
-- -------------------------------------------------------------------------

/-- A client array descriptor.  The caller-owned source pointer is modelled
as an address (none for NULL). -/
structure ClientArray where
  enabled : Bool
  size : ℤ
  type : ℕ
  stride : ℤ
  pointer : Option ℤ

/-- The static scratch buffer of UploadClientArrays (and the analogous one of
bridge_End): whether buf is currently NULL, and the recorded bufCapacity in
bytes. -/
structure Scratch where
  bufNull : Bool
  bufCapacity : ℕ

/-- The global state of the bridge that the claims below observe.  The light
colors, fog scalars and the current color are omitted: only the enabled flags
and the client-array descriptors are consulted by the operations modelled
here.  The lights array is indexed by the light number (the C code only ever
touches indices 0..7, guarded by the same range test modelled below). -/
structure BridgeState where
  lights : ℕ → Bool
  gLightingEnabled : Bool
  gColorMaterialEnabled : Bool
  gNormalizeEnabled : Bool
  gTexture2DEnabled : Bool
  gAlphaTest : AlphaTestState
  gFogEnabled : Bool
  gVertexArray : ClientArray
  gNormalArray : ClientArray
  gTexCoordArray : ClientArray
  gColorArray : ClientArray
  scratch : Scratch
  shaderOk : Bool

/-- The bridge state right after a successful GLESBridge_Init: shader built,
all capability flags false, default client arrays (sizes 4/3/2/4, GL_FLOAT,
stride 0, NULL pointers), scratch buffer still NULL with capacity 0. -/
def initialBridgeState : BridgeState where
  lights := fun _ => false
  gLightingEnabled := false
  gColorMaterialEnabled := false
  gNormalizeEnabled := false
  gTexture2DEnabled := false
  gAlphaTest := ⟨0x0207, 0, false⟩
  gFogEnabled := false
  gVertexArray := ⟨false, 4, 0x1406, 0, none⟩
  gNormalArray := ⟨false, 3, 0x1406, 0, none⟩
  gTexCoordArray := ⟨false, 2, 0x1406, 0, none⟩
  gColorArray := ⟨false, 4, 0x1406, 0, none⟩
  scratch := ⟨true, 0⟩
  shaderOk := true

/-- bridge_Enable.  Unrecognized capabilities are passed to the real glEnable
and touch no tracked state. -/
def bridge_Enable (cap : ℕ) (s : BridgeState) : BridgeState :=
  if 0x4000 ≤ cap ∧ cap ≤ 0x4007 then
    { s with lights := fun i => if i = cap - 0x4000 then true else s.lights i }
  else if cap = 0x0B50 then { s with gLightingEnabled := true }
  else if cap = 0x0B57 then { s with gColorMaterialEnabled := true }
  else if cap = 0x0BA1 then { s with gNormalizeEnabled := true }
  else if cap = 0x0BC0 then { s with gAlphaTest := ⟨s.gAlphaTest.func, s.gAlphaTest.ref, true⟩ }
  else if cap = 0x0B60 then { s with gFogEnabled := true }
  else if cap = 0x0DE1 then { s with gTexture2DEnabled := true }
  else s

/-- bridge_Disable, symmetric to bridge_Enable. -/
def bridge_Disable (cap : ℕ) (s : BridgeState) : BridgeState :=
  if 0x4000 ≤ cap ∧ cap ≤ 0x4007 then
    { s with lights := fun i => if i = cap - 0x4000 then false else s.lights i }
  else if cap = 0x0B50 then { s with gLightingEnabled := false }
  else if cap = 0x0B57 then { s with gColorMaterialEnabled := false }
  else if cap = 0x0BA1 then { s with gNormalizeEnabled := false }
  else if cap = 0x0BC0 then { s with gAlphaTest := ⟨s.gAlphaTest.func, s.gAlphaTest.ref, false⟩ }
  else if cap = 0x0B60 then { s with gFogEnabled := false }
  else if cap = 0x0DE1 then { s with gTexture2DEnabled := false }
  else s

/-- bridge_IsEnabled.  The fall-through case consults the real glIsEnabled,
modelled by the external oracle glIsEnabled.  Note the C switch has cases for
lights, 0x0B50, 0x0B57, 0x0BC0, 0x0B60 and 0x0DE1 but none for 0x0BA1
(GL_NORMALIZE), which therefore falls through to the oracle. -/
def bridge_IsEnabled (glIsEnabled : ℕ → Bool) (s : BridgeState) (cap : ℕ) : Bool :=
  if 0x4000 ≤ cap ∧ cap ≤ 0x4007 then s.lights (cap - 0x4000)
  else if cap = 0x0B50 then s.gLightingEnabled
  else if cap = 0x0B57 then s.gColorMaterialEnabled
  else if cap = 0x0BC0 then s.gAlphaTest.enabled
  else if cap = 0x0B60 then s.gFogEnabled
  else if cap = 0x0DE1 then s.gTexture2DEnabled
  else glIsEnabled cap

-- -------------------------------------------------------------------------
-- Draw path
-- -------------------------------------------------------------------------

/-- GLTypeSize: element size in bytes per GL type token, defaulting to 4. -/
def GLTypeSize (type : ℕ) : ℤ :=
  if type = 0x1406 then 4
  else if type = 0x1403 then 2
  else if type = 0x1405 then 4
  else if type = 0x1401 then 1
  else if type = 0x1402 then 2
  else if type = 0x1404 then 4
  else 4

/-- Effective row stride of a channel: the stored stride if nonzero, else
componentCount * sizeOfType (the C conditional expression). -/
def effectiveStride (a : ClientArray) : ℤ :=
  if a.stride ≠ 0 then a.stride else a.size * GLTypeSize a.type

/-- Result of UploadClientArrays: the new bridge state (only the scratch
buffer can change), the returned vertex count, and whether the glBufferData
upload was reached. -/
structure UploadResult where
  state : BridgeState
  ret : ℕ
  uploaded : Bool

/-- The scratch growth step shared by UploadClientArrays and bridge_End: if
the needed size exceeds the recorded capacity the buffer is freed and
reallocated and the recorded capacity is set to the needed size whether or
not the allocation succeeded (the alloc oracle tells whether malloc returns
non-NULL for a given request). -/
def growScratch (alloc : ℕ → Bool) (scr : Scratch) (needed : ℕ) : Scratch :=
  if scr.bufCapacity < needed then ⟨!(alloc needed), needed⟩ else scr

/-- UploadClientArrays, control flow and scratch-buffer state.  The layout
constant kStride is (3+3+2+4)*4 = 48 bytes per vertex.  If the buffer is NULL
after the growth step the function returns 0 before interleaving or uploading
anything.  The per-vertex interleaving writes fill the scratch buffer and are
not observable in the claims proved here, so they are not modelled. -/
def UploadClientArrays (alloc : ℕ → Bool) (s : BridgeState) (numVerts : ℕ) :
    UploadResult :=
  if (growScratch alloc s.scratch (numVerts * ((3 + 3 + 2 + 4) * 4))).bufNull then
    ⟨{ s with scratch := growScratch alloc s.scratch (numVerts * ((3 + 3 + 2 + 4) * 4)) },
      0, false⟩
  else
    ⟨{ s with scratch := growScratch alloc s.scratch (numVerts * ((3 + 3 + 2 + 4) * 4)) },
      numVerts, true⟩

/-- The (int) cast the MaxIndex loop applies to a 32-bit unsigned index. -/
def toInt32 (v : ℕ) : ℤ :=
  if v % 4294967296 < 2147483648 then ((v % 4294967296 : ℕ) : ℤ)
  else ((v % 4294967296 : ℕ) : ℤ) - 4294967296

/-- The body of the MaxIndex scan loops: keep the running maximum maxIdx,
replacing it when the next loaded (and cast) index value exceeds it. -/
def maxScanStep (g : ℕ → ℤ) (m : ℤ) (v : ℕ) : ℤ :=
  if m < g v then g v else m

/-- MaxIndex: scans the index buffer and returns max(index) + 1.  maxIdx
starts at 0 and the scan loop only runs for the three recognized unsigned
index types, so an unrecognized type yields 0 + 1.  The list holds the count
index values read from the buffer; 16-bit and 8-bit values are reduced by
their storage width and 32-bit values go through the (int) cast, mirroring
the typed loads of the C loops. -/
def MaxIndex (indices : List ℕ) (type : ℕ) : ℤ :=
  (if type = 0x1403 then
    indices.foldl (maxScanStep (fun v => ((v % 65536 : ℕ) : ℤ))) 0
  else if type = 0x1405 then
    indices.foldl (maxScanStep toInt32) 0
  else if type = 0x1401 then
    indices.foldl (maxScanStep (fun v => ((v % 256 : ℕ) : ℤ))) 0
  else 0) + 1

/-- Result of the two array-draw entry points: the new bridge state, whether
a GL draw command was issued, whether the vertex upload was reached, the
vertex count returned by UploadClientArrays, and the vertex count it was
asked to assemble. -/
structure DrawResult where
  state : BridgeState
  drawIssued : Bool
  uploaded : Bool
  assembled : ℕ
  numVerts : ℕ

/-- bridge_DrawElements: no-op when the shader program failed to build;
otherwise flushes state, derives the vertex count from the index scan,
assembles and uploads that many vertices, uploads the index buffer and
issues glDrawElements unconditionally (the return value of
UploadClientArrays is not consulted). -/
def bridge_DrawElements (alloc : ℕ → Bool) (s : BridgeState)
    (indices : List ℕ) (type : ℕ) : DrawResult :=
  if s.shaderOk = false then ⟨s, false, false, 0, 0⟩
  else
    let numVerts : ℕ := (MaxIndex indices type).toNat
    let u := UploadClientArrays alloc s numVerts
    ⟨u.state, true, u.uploaded, u.ret, numVerts⟩

/-- Offsetting a channel pointer, guarded by the NULL test of the C code. -/
def offsetPtr (p : Option ℤ) (first stride : ℤ) : Option ℤ :=
  match p with
  | none => none
  | some addr => some (addr + first * stride)

/-- bridge_DrawArrays: no-op when the shader program failed to build;
otherwise saves the four channel pointers, offsets each non-NULL pointer by
first times the effective stride when first > 0, assembles and uploads count
vertices, issues glDrawArrays, and finally restores all four saved
pointers. -/
def bridge_DrawArrays (alloc : ℕ → Bool) (s : BridgeState)
    (first : ℤ) (count : ℕ) : DrawResult :=
  if s.shaderOk = false then ⟨s, false, false, 0, 0⟩
  else
    let savedVP := s.gVertexArray.pointer
    let savedNP := s.gNormalArray.pointer
    let savedTP := s.gTexCoordArray.pointer
    let savedCP := s.gColorArray.pointer
    let s1 : BridgeState :=
      if 0 < first then
        { s with
          gVertexArray :=
            { s.gVertexArray with
              pointer := offsetPtr savedVP first (effectiveStride s.gVertexArray) }
          gNormalArray :=
            { s.gNormalArray with
              pointer := offsetPtr savedNP first
                (if s.gNormalArray.stride ≠ 0 then s.gNormalArray.stride
                 else 3 * GLTypeSize s.gNormalArray.type) }
          gTexCoordArray :=
            { s.gTexCoordArray with
              pointer := offsetPtr savedTP first (effectiveStride s.gTexCoordArray) }
          gColorArray :=
            { s.gColorArray with
              pointer := offsetPtr savedCP first (effectiveStride s.gColorArray) } }
      else s
    let u := UploadClientArrays alloc s1 count
    let s2 : BridgeState :=
      { u.state with
        gVertexArray := { u.state.gVertexArray with pointer := savedVP }
        gNormalArray := { u.state.gNormalArray with pointer := savedNP }
        gTexCoordArray := { u.state.gTexCoordArray with pointer := savedTP }
        gColorArray := { u.state.gColorArray with pointer := savedCP } }
    ⟨s2, true, u.uploaded, u.ret, count⟩

-- -------------------------------------------------------------------------
-- Immediate mode
-- -------------------------------------------------------------------------

def IMM_MAX_VERTS : ℕ := 8192

/-- One recorded immediate-mode vertex: position, latched normal, latched
texcoord, and a snapshot of the current color. -/
structure ImmVertex where
  x : ℚ
  y : ℚ
  z : ℚ
  nx : ℚ
  ny : ℚ
  nz : ℚ
  u : ℚ
  v : ℚ
  r : ℚ
  g : ℚ
  b : ℚ
  a : ℚ

/-- The immediate-mode globals: the recorded vertices gImmVerts (whose length
is gImmVertCount; the C code only ever reads slots below the count), the
primitive mode, the latched normal and texcoord, and the current color
gCurrentColor consulted by bridge_Vertex3f. -/
structure ImmState where
  gImmVerts : List ImmVertex
  gImmMode : ℕ
  gImmCurrentNormal : ℚ × ℚ × ℚ
  gImmCurrentTexCoord : ℚ × ℚ
  gCurrentColor : ℚ × ℚ × ℚ × ℚ

/-- The immediate-mode globals at program start: no recorded vertices,
normal (0,0,1), texcoord (0,0), current color (1,1,1,1). -/
def immState0 : ImmState := ⟨[], 0, (0, 0, 1), (0, 0), (1, 1, 1, 1)⟩

/-- bridge_Begin: remember the mode and reset the recorded count to zero. -/
def bridge_Begin (mode : ℕ) (s : ImmState) : ImmState :=
  { s with gImmMode := mode, gImmVerts := [] }

/-- bridge_Vertex3f: when the recorder is at capacity the submission is
dropped; otherwise one vertex is written at index gImmVertCount (which is
always below IMM_MAX_VERTS at that point) and the count is incremented. -/
def bridge_Vertex3f (x y z : ℚ) (s : ImmState) : ImmState :=
  if IMM_MAX_VERTS ≤ s.gImmVerts.length then s
  else
    { s with
      gImmVerts := s.gImmVerts ++
        [⟨x, y, z,
          s.gImmCurrentNormal.1, s.gImmCurrentNormal.2.1, s.gImmCurrentNormal.2.2,
          s.gImmCurrentTexCoord.1, s.gImmCurrentTexCoord.2,
          s.gCurrentColor.1, s.gCurrentColor.2.1, s.gCurrentColor.2.2.1,
          s.gCurrentColor.2.2.2⟩] }

/-- bridge_Vertex2f is bridge_Vertex3f with z fixed to 0. -/
def bridge_Vertex2f (x y : ℚ) (s : ImmState) : ImmState :=
  bridge_Vertex3f x y 0 s

/-- bridge_Normal3f updates the latched normal. -/
def bridge_Normal3f (x y z : ℚ) (s : ImmState) : ImmState :=
  { s with gImmCurrentNormal := (x, y, z) }

/-- bridge_TexCoord2f updates the latched texcoord. -/
def bridge_TexCoord2f (a b : ℚ) (s : ImmState) : ImmState :=
  { s with gImmCurrentTexCoord := (a, b) }

/-- bridge_Color4f updates the current color. -/
def bridge_Color4f (r g b a : ℚ) (s : ImmState) : ImmState :=
  { s with gCurrentColor := (r, g, b, a) }

/-- The immediate-mode submissions a caller can make between begin and end. -/
inductive ImmOp where
  | vertex3f (x y z : ℚ)
  | vertex2f (x y : ℚ)
  | normal3f (x y z : ℚ)
  | texCoord2f (a b : ℚ)
  | color4f (r g b a : ℚ)

def applyImmOp (op : ImmOp) (s : ImmState) : ImmState :=
  match op with
  | .vertex3f x y z => bridge_Vertex3f x y z s
  | .vertex2f x y => bridge_Vertex2f x y s
  | .normal3f x y z => bridge_Normal3f x y z s
  | .texCoord2f a b => bridge_TexCoord2f a b s
  | .color4f r g b a => bridge_Color4f r g b a s

def applyImmOps (ops : List ImmOp) (s : ImmState) : ImmState :=
  ops.foldl (fun s op => applyImmOp op s) s

/-- Number of vertex submissions (bridge_Vertex3f or bridge_Vertex2f calls)
in a sequence of immediate-mode operations. -/
def submittedCount : List ImmOp → ℕ
  | [] => 0
  | .vertex3f _ _ _ :: rest => submittedCount rest + 1
  | .vertex2f _ _ :: rest => submittedCount rest + 1
  | .normal3f _ _ _ :: rest => submittedCount rest
  | .texCoord2f _ _ :: rest => submittedCount rest
  | .color4f _ _ _ _ :: rest => submittedCount rest

/-- Result of bridge_End: the new scratch buffer of its static interleave
buffer, the new immediate-mode state, and either none (no GL draw call
issued) or some n (glDrawArrays issued over n vertices). -/
structure EndResult where
  scratch : Scratch
  state : ImmState
  draw : Option ℕ

/-- bridge_End: returns immediately, issuing no draw, if no vertex was
recorded or the shader program failed to build (the recorded count is kept in
that case).  Otherwise it grows its static interleave buffer exactly like
UploadClientArrays grows its scratch (capacity recorded even on allocation
failure), gives up with the count reset when the buffer is NULL, and
otherwise uploads and draws exactly the recorded count and resets it. -/
def bridge_End (alloc : ℕ → Bool) (scr : Scratch) (shaderOk : Bool)
    (s : ImmState) : EndResult :=
  if s.gImmVerts.length = 0 ∨ shaderOk = false then ⟨scr, s, none⟩
  else if (growScratch alloc scr (s.gImmVerts.length * ((3 + 3 + 2 + 4) * 4))).bufNull then
    ⟨growScratch alloc scr (s.gImmVerts.length * ((3 + 3 + 2 + 4) * 4)),
      { s with gImmVerts := [] }, none⟩
  else
    ⟨growScratch alloc scr (s.gImmVerts.length * ((3 + 3 + 2 + 4) * 4)),
      { s with gImmVerts := [] }, some s.gImmVerts.length⟩

-- -------------------------------------------------------------------------
-- Theorems
-- -------------------------------------------------------------------------

/-- Claim C3 as stated is false: calling ortho(-1, 1, -1, 1, -1, 1) on an
identity top does not leave the identity on top; the entry at row 2, column 2
becomes -2/(1-(-1)) = -1, so the resulting matrix differs from the
identity. -/
theorem C3_ortho_counterexample :
    (bridge_Ortho (-1) 1 (-1) 1 (-1) 1 MatStack_Init).top ≠ Mat4_Identity := by
  intro h
  have h22 := congrFun (congrFun h 2) 2
  simp [bridge_Ortho, bridge_MultMatrixf, MatStack_Init, Mat4_Multiply,
    Fin.sum_univ_four, orthoMat, Mat4_Identity, Mat4_Zero, setEntry] at h22
  norm_num at h22

/-- Claim C3 amended: calling ortho(-1, 1, -1, 1, -1, 1) on an identity top
leaves on top the matrix that is the identity except that the entry at row 2,
column 2 is -1, i.e. diag(1, 1, -1, 1): the standard ortho matrix negates the
z axis even for this symmetric cube. -/
theorem C3_ortho_amended :
    (bridge_Ortho (-1) 1 (-1) 1 (-1) 1 MatStack_Init).top
      = setEntry Mat4_Identity 2 2 (-1) := by
  funext i j
  fin_cases i <;> fin_cases j <;>
    simp [bridge_Ortho, bridge_MultMatrixf, MatStack_Init, Mat4_Multiply,
      Fin.sum_univ_four, orthoMat, Mat4_Identity, Mat4_Zero, setEntry] <;>
    norm_num

/-- Claim C6: for each of the 8 alpha-test comparison tokens with reference
value 1/2 stored through bridge_AlphaFunc and the test enabled, the shader
discards a fragment exactly when the standard relational semantics of the
token rejects its alpha, checked at alphas 1/2, 49/100 and 51/100:
always-pass (0x0207) passes all three; never-pass (0x0200) fails all three;
less (0x0201) passes only 49/100; equal (0x0202) passes only 1/2; less-equal
(0x0203) passes 49/100 and 1/2; greater (0x0204) passes only 51/100;
not-equal (0x0205) passes 49/100 and 51/100; greater-equal (0x0206) passes
1/2 and 51/100. -/
theorem C6_alpha_test :
    (∀ a : ℚ, a = 1/2 ∨ a = 49/100 ∨ a = 51/100 →
      fragmentAlphaDiscard (bridge_AlphaFunc 0x0207 (1/2) ⟨0, 0, true⟩) a = false) ∧
    (∀ a : ℚ, a = 1/2 ∨ a = 49/100 ∨ a = 51/100 →
      fragmentAlphaDiscard (bridge_AlphaFunc 0x0200 (1/2) ⟨0, 0, true⟩) a = true) ∧
    (fragmentAlphaDiscard (bridge_AlphaFunc 0x0201 (1/2) ⟨0, 0, true⟩) (1/2) = true ∧
     fragmentAlphaDiscard (bridge_AlphaFunc 0x0201 (1/2) ⟨0, 0, true⟩) (49/100) = false ∧
     fragmentAlphaDiscard (bridge_AlphaFunc 0x0201 (1/2) ⟨0, 0, true⟩) (51/100) = true) ∧
    (fragmentAlphaDiscard (bridge_AlphaFunc 0x0202 (1/2) ⟨0, 0, true⟩) (1/2) = false ∧
     fragmentAlphaDiscard (bridge_AlphaFunc 0x0202 (1/2) ⟨0, 0, true⟩) (49/100) = true ∧
     fragmentAlphaDiscard (bridge_AlphaFunc 0x0202 (1/2) ⟨0, 0, true⟩) (51/100) = true) ∧
    (fragmentAlphaDiscard (bridge_AlphaFunc 0x0203 (1/2) ⟨0, 0, true⟩) (1/2) = false ∧
     fragmentAlphaDiscard (bridge_AlphaFunc 0x0203 (1/2) ⟨0, 0, true⟩) (49/100) = false ∧
     fragmentAlphaDiscard (bridge_AlphaFunc 0x0203 (1/2) ⟨0, 0, true⟩) (51/100) = true) ∧
    (fragmentAlphaDiscard (bridge_AlphaFunc 0x0204 (1/2) ⟨0, 0, true⟩) (1/2) = true ∧
     fragmentAlphaDiscard (bridge_AlphaFunc 0x0204 (1/2) ⟨0, 0, true⟩) (49/100) = true ∧
     fragmentAlphaDiscard (bridge_AlphaFunc 0x0204 (1/2) ⟨0, 0, true⟩) (51/100) = false) ∧
    (fragmentAlphaDiscard (bridge_AlphaFunc 0x0205 (1/2) ⟨0, 0, true⟩) (1/2) = true ∧
     fragmentAlphaDiscard (bridge_AlphaFunc 0x0205 (1/2) ⟨0, 0, true⟩) (49/100) = false ∧
     fragmentAlphaDiscard (bridge_AlphaFunc 0x0205 (1/2) ⟨0, 0, true⟩) (51/100) = false) ∧
    (fragmentAlphaDiscard (bridge_AlphaFunc 0x0206 (1/2) ⟨0, 0, true⟩) (1/2) = false ∧
     fragmentAlphaDiscard (bridge_AlphaFunc 0x0206 (1/2) ⟨0, 0, true⟩) (49/100) = true ∧
     fragmentAlphaDiscard (bridge_AlphaFunc 0x0206 (1/2) ⟨0, 0, true⟩) (51/100) = false) := by
  refine ⟨?_, ?_, ?_, ?_, ?_, ?_, ?_, ?_⟩ <;>
    first
      | (intro a ha
         rcases ha with rfl | rfl | rfl <;>
           simp [fragmentAlphaDiscard, bridge_AlphaFunc, alphaTestPass])
      | (refine ⟨?_, ?_, ?_⟩ <;>
           norm_num [fragmentAlphaDiscard, bridge_AlphaFunc, alphaTestPass])

/-- Claim C2 fails at capability 0x0BA1 (GL_NORMALIZE): bridge_Enable tracks
the flag, but bridge_IsEnabled has no case for it and consults the external
glIsEnabled oracle instead.  With an oracle answering false the query returns
false right after the capability was enabled, and with an oracle answering
true it returns true right after the capability was disabled — in both
directions the answer is the oracle value, not the most recently set
boolean. -/
theorem C2_normalize_query_bug :
    (bridge_Enable 0x0BA1 initialBridgeState).gNormalizeEnabled = true ∧
    bridge_IsEnabled (fun _ => false)
      (bridge_Enable 0x0BA1 initialBridgeState) 0x0BA1 = false ∧
    (bridge_Disable 0x0BA1 initialBridgeState).gNormalizeEnabled = false ∧
    bridge_IsEnabled (fun _ => true)
      (bridge_Disable 0x0BA1 initialBridgeState) 0x0BA1 = true := by
  decide

/-- Claim C1 fails on the code.  Scenario, starting from the post-init state
(scratch buffer NULL, capacity 0): an indexed draw over index list [1]
(16-bit indices) needs 2 vertices, hence 96 scratch bytes, and the allocator
fails; nothing is assembled, yet glDrawElements is still issued, and the
recorded capacity is set to 96.  A later draw over [0] needs only 48 bytes —
a requirement the now-healthy allocator could satisfy — but because 48 does
not exceed the recorded capacity no allocation is retried and the assembly is
skipped again (and the draw is again issued on the stale buffer).  Only a
draw whose requirement exceeds the recorded capacity, here over [2] needing
144 bytes, reallocates and uploads normally. -/
theorem C1_alloc_failure_bug :
    (bridge_DrawElements (fun _ => false) initialBridgeState [1] 0x1403).uploaded
        = false ∧
    (bridge_DrawElements (fun _ => false) initialBridgeState [1] 0x1403).assembled
        = 0 ∧
    (bridge_DrawElements (fun _ => false) initialBridgeState [1] 0x1403).drawIssued
        = true ∧
    (bridge_DrawElements (fun _ => false) initialBridgeState [1] 0x1403).state.scratch.bufCapacity
        = 96 ∧
    (bridge_DrawElements (fun _ => true)
      (bridge_DrawElements (fun _ => false) initialBridgeState [1] 0x1403).state
      [0] 0x1403).uploaded = false ∧
    (bridge_DrawElements (fun _ => true)
      (bridge_DrawElements (fun _ => false) initialBridgeState [1] 0x1403).state
      [0] 0x1403).drawIssued = true ∧
    (bridge_DrawElements (fun _ => true)
      (bridge_DrawElements (fun _ => false) initialBridgeState [1] 0x1403).state
      [2] 0x1403).uploaded = true := by
  decide

theorem applyMatOps_nil (s : MatrixStack) : applyMatOps [] s = s := rfl

theorem applyMatOps_cons (op : MatOp) (ops : List MatOp) (s : MatrixStack) :
    applyMatOps (op :: ops) s = applyMatOps ops (applyMatOp op s) := rfl

/-- Claim C5: on any stack whose depth is below 32, a push followed by a pop
restores the stack to its prior state, in particular with the same top
matrix. -/
theorem C5_push_pop (s : MatrixStack) (h : depth s < 32) :
    MatStack_Pop (MatStack_Push s) = s := by
  have hneg : ¬ MATRIX_STACK_DEPTH ≤ topIndex s + 1 := by
    simp only [depth] at h
    simp only [MATRIX_STACK_DEPTH, topIndex]
    omega
  simp only [MatStack_Push, if_neg hneg]
  rfl

/-- Witness for C5 at the freshly initialized stack of depth 1. -/
theorem C5_witness :
    depth MatStack_Init < 32 ∧
    MatStack_Pop (MatStack_Push MatStack_Init) = MatStack_Init :=
  ⟨by decide, C5_push_pop MatStack_Init (by decide)⟩

/-- Claim C8: a push on a full stack (top index 31, depth 32) returns with
the stack unchanged; a pop on a stack at minimum depth (top index 0, no
entries below the top) returns with the stack unchanged; and along every
sequence of stack operations from the initialized stack the depth stays at
most 32, i.e. the top index stays below the fixed bound of 32 entries. -/
theorem C8_stack_bounds :
    (∀ s : MatrixStack, 32 ≤ depth s → MatStack_Push s = s) ∧
    (∀ s : MatrixStack, s.rest = [] → MatStack_Pop s = s) ∧
    (∀ ops : List MatOp, depth (applyMatOps ops MatStack_Init) ≤ 32) := by
  refine ⟨?_, ?_, ?_⟩
  · intro s h
    have hc : MATRIX_STACK_DEPTH ≤ topIndex s + 1 := by
      simp only [depth] at h
      simp only [MATRIX_STACK_DEPTH, topIndex]
      omega
    simp [MatStack_Push, hc]
  · intro s h
    cases s with
    | mk t r =>
      cases h
      rfl
  · have step : ∀ (op : MatOp) (s : MatrixStack),
        depth s ≤ 32 → depth (applyMatOp op s) ≤ 32 := by
      intro op s h
      cases op with
      | push =>
        by_cases hc : MATRIX_STACK_DEPTH ≤ topIndex s + 1
        · simpa [applyMatOp, MatStack_Push, hc] using h
        · simp only [MATRIX_STACK_DEPTH, topIndex] at hc
          simp only [applyMatOp, MatStack_Push, MATRIX_STACK_DEPTH, topIndex,
            if_neg (by omega : ¬ (32 : ℕ) ≤ s.rest.length + 1)]
          simp only [depth] at h ⊢
          simp only [List.length_cons]
          omega
      | pop =>
        cases s with
        | mk t r =>
          cases r with
          | nil => simpa [applyMatOp, MatStack_Pop] using h
          | cons m rs =>
            simp only [applyMatOp, MatStack_Pop, depth, List.length_cons] at h ⊢
            omega
      | loadIdentity => simpa [applyMatOp, bridge_LoadIdentity, depth] using h
      | loadMatrix m => simpa [applyMatOp, bridge_LoadMatrixf, depth] using h
      | multMatrix m => simpa [applyMatOp, bridge_MultMatrixf, depth] using h
    have key : ∀ (ops : List MatOp) (s : MatrixStack),
        depth s ≤ 32 → depth (applyMatOps ops s) ≤ 32 := by
      intro ops
      induction ops with
      | nil =>
        intro s h
        simpa [applyMatOps_nil] using h
      | cons op rest ih =>
        intro s h
        rw [applyMatOps_cons]
        exact ih (applyMatOp op s) (step op s h)
    intro ops
    exact key ops MatStack_Init (by decide)

/-- A stack at the full depth of 32 entries, for the C8 witness. -/
def fullStack32 : MatrixStack := ⟨Mat4_Identity, List.replicate 31 Mat4_Identity⟩

/-- Witness for C8: the full stack is left unchanged by a push, the
initialized stack is left unchanged by a pop, and a concrete operation
sequence respects the bound. -/
theorem C8_witness :
    32 ≤ depth fullStack32 ∧
    MatStack_Push fullStack32 = fullStack32 ∧
    MatStack_Init.rest = [] ∧
    MatStack_Pop MatStack_Init = MatStack_Init ∧
    depth (applyMatOps [MatOp.pop, MatOp.push] MatStack_Init) ≤ 32 :=
  ⟨by decide,
   C8_stack_bounds.1 fullStack32 (by decide),
   rfl,
   C8_stack_bounds.2.1 MatStack_Init rfl,
   C8_stack_bounds.2.2 [MatOp.pop, MatOp.push]⟩

/-- Claim C7: loadIdentity followed by translate(x, y, z) leaves a top matrix
that maps every point (px, py, pz) to (px + x, py + y, pz + z) as a column
vector with w = 1, and in particular maps the origin to (x, y, z). -/
theorem C7_translate_action (x y z px py pz : ℚ) (s : MatrixStack) :
    mapPoint (bridge_Translatef x y z (bridge_LoadIdentity s)).top px py pz
      = (px + x, py + y, pz + z) ∧
    mapPoint (bridge_Translatef x y z (bridge_LoadIdentity s)).top 0 0 0
      = (x, y, z) := by
  have htop : (bridge_Translatef x y z (bridge_LoadIdentity s)).top
      = translateMat x y z := Mat4_Multiply_identity_left _
  rw [htop]
  constructor <;>
    · simp [mapPoint, translateMat, setEntry, Mat4_Identity, Mat4_Zero,
        Prod.ext_iff]

/-- Claim C9: bridge_DrawArrays leaves every channel descriptor holding the
same source pointer it held before the call, for every first offset, vertex
count, allocator behavior and prior state (in particular whether or not each
pointer is NULL): the temporary offset by first times the effective stride is
always undone. -/
theorem C9_drawArrays_restores_pointers (alloc : ℕ → Bool) (s : BridgeState)
    (first : ℤ) (count : ℕ) :
    (bridge_DrawArrays alloc s first count).state.gVertexArray.pointer
        = s.gVertexArray.pointer ∧
    (bridge_DrawArrays alloc s first count).state.gNormalArray.pointer
        = s.gNormalArray.pointer ∧
    (bridge_DrawArrays alloc s first count).state.gTexCoordArray.pointer
        = s.gTexCoordArray.pointer ∧
    (bridge_DrawArrays alloc s first count).state.gColorArray.pointer
        = s.gColorArray.pointer := by
  by_cases hs : s.shaderOk = false <;>
    simp [bridge_DrawArrays, hs, UploadClientArrays]

theorem applyImmOps_nil (s : ImmState) : applyImmOps [] s = s := rfl

theorem applyImmOps_cons (op : ImmOp) (ops : List ImmOp) (s : ImmState) :
    applyImmOps (op :: ops) s = applyImmOps ops (applyImmOp op s) := rfl

/-- The recorded count after a sequence of immediate-mode operations: every
vertex submission increments it until the fixed capacity is reached, at which
point further submissions are dropped. -/
theorem applyImmOps_length (ops : List ImmOp) :
    ∀ s : ImmState, s.gImmVerts.length ≤ IMM_MAX_VERTS →
      (applyImmOps ops s).gImmVerts.length
        = min (s.gImmVerts.length + submittedCount ops) IMM_MAX_VERTS := by
  induction ops with
  | nil =>
    intro s h
    simp only [applyImmOps_nil, submittedCount, Nat.add_zero]
    omega
  | cons op rest ih =>
    intro s h
    rw [applyImmOps_cons]
    cases op with
    | vertex3f x y z =>
      simp only [applyImmOp]
      by_cases hc : IMM_MAX_VERTS ≤ s.gImmVerts.length
      · rw [show bridge_Vertex3f x y z s = s from by simp [bridge_Vertex3f, hc]]
        rw [ih s h]
        simp only [submittedCount]
        omega
      · have hlen : (bridge_Vertex3f x y z s).gImmVerts.length
            = s.gImmVerts.length + 1 := by
          simp [bridge_Vertex3f, hc]
        rw [ih _ (by rw [hlen]; omega), hlen]
        simp only [submittedCount]
        omega
    | vertex2f x y =>
      simp only [applyImmOp, bridge_Vertex2f]
      by_cases hc : IMM_MAX_VERTS ≤ s.gImmVerts.length
      · rw [show bridge_Vertex3f x y 0 s = s from by simp [bridge_Vertex3f, hc]]
        rw [ih s h]
        simp only [submittedCount]
        omega
      · have hlen : (bridge_Vertex3f x y 0 s).gImmVerts.length
            = s.gImmVerts.length + 1 := by
          simp [bridge_Vertex3f, hc]
        rw [ih _ (by rw [hlen]; omega), hlen]
        simp only [submittedCount]
        omega
    | normal3f x y z => exact ih _ h
    | texCoord2f a b => exact ih _ h
    | color4f r g b a => exact ih _ h

/-- Claim C4: after begin and any sequence of immediate-mode submissions,
with a built shader and a healthy allocator: if more than 8192 vertices were
submitted then exactly 8192 are recorded (excess submissions were dropped by
the bounds check, which never lets the write index reach the capacity) and
end draws exactly 8192 vertices; if zero vertices were submitted, end issues
no draw call at all. -/
theorem C4_recorder_bounds (ops : List ImmOp) (mode : ℕ) (s0 : ImmState)
    (scr : Scratch) (alloc : ℕ → Bool)
    (hscr : scr.bufNull = false) (halloc : ∀ n, alloc n = true) :
    (IMM_MAX_VERTS < submittedCount ops →
      (applyImmOps ops (bridge_Begin mode s0)).gImmVerts.length = IMM_MAX_VERTS ∧
      (bridge_End alloc scr true (applyImmOps ops (bridge_Begin mode s0))).draw
        = some IMM_MAX_VERTS) ∧
    (submittedCount ops = 0 →
      (bridge_End alloc scr true (applyImmOps ops (bridge_Begin mode s0))).draw
        = none) := by
  have hlen := applyImmOps_length ops (bridge_Begin mode s0)
    (by simp [bridge_Begin])
  rw [show (bridge_Begin mode s0).gImmVerts.length = 0 from rfl] at hlen
  rw [Nat.zero_add] at hlen
  constructor
  · intro hgt
    have h8192 : (applyImmOps ops (bridge_Begin mode s0)).gImmVerts.length
        = IMM_MAX_VERTS := by
      rw [hlen]
      omega
    refine ⟨h8192, ?_⟩
    rw [bridge_End, if_neg (by simp [h8192, IMM_MAX_VERTS])]
    rw [h8192]
    by_cases hcap : scr.bufCapacity < IMM_MAX_VERTS * ((3 + 3 + 2 + 4) * 4) <;>
      simp [growScratch, hcap, hscr, halloc]
  · intro h0
    have hz : (applyImmOps ops (bridge_Begin mode s0)).gImmVerts.length = 0 := by
      rw [hlen, h0]
      simp
    rw [bridge_End, if_pos (Or.inl hz)]

theorem submittedCount_replicate (n : ℕ) (x y z : ℚ) :
    submittedCount (List.replicate n (ImmOp.vertex3f x y z)) = n := by
  induction n with
  | zero => rfl
  | succ k ih => simp [List.replicate, submittedCount, ih]

/-- Witness for C4: a concrete run that submits 8193 vertices records and
draws exactly 8192 of them, and a run with zero submissions draws nothing. -/
theorem C4_witness :
    IMM_MAX_VERTS < submittedCount (List.replicate 8193 (ImmOp.vertex3f 0 0 0)) ∧
    (applyImmOps (List.replicate 8193 (ImmOp.vertex3f 0 0 0))
      (bridge_Begin 4 immState0)).gImmVerts.length = IMM_MAX_VERTS ∧
    (bridge_End (fun _ => true) ⟨false, 0⟩ true
      (applyImmOps (List.replicate 8193 (ImmOp.vertex3f 0 0 0))
        (bridge_Begin 4 immState0))).draw = some IMM_MAX_VERTS ∧
    submittedCount ([] : List ImmOp) = 0 ∧
    (bridge_End (fun _ => true) ⟨false, 0⟩ true
      (applyImmOps [] (bridge_Begin 4 immState0))).draw = none := by
  have hc : IMM_MAX_VERTS
      < submittedCount (List.replicate 8193 (ImmOp.vertex3f 0 0 0)) := by
    rw [submittedCount_replicate]
    simp [IMM_MAX_VERTS]
  have h := C4_recorder_bounds (List.replicate 8193 (ImmOp.vertex3f 0 0 0)) 4
    immState0 ⟨false, 0⟩ (fun _ => true) rfl (fun _ => rfl)
  have h0 := C4_recorder_bounds [] 4 immState0 ⟨false, 0⟩ (fun _ => true) rfl
    (fun _ => rfl)
  exact ⟨hc, (h.1 hc).1, (h.1 hc).2, rfl, h0.2 rfl⟩

/-- The scan accumulator of MaxIndex never drops below its starting point
when that starting point is at most every later candidate kept, in
particular it stays nonnegative from 0. -/
theorem maxScan_nonneg (g : ℕ → ℤ) :
    ∀ (l : List ℕ) (m : ℤ), 0 ≤ m → 0 ≤ l.foldl (maxScanStep g) m := by
  intro l
  induction l with
  | nil =>
    intro m h
    simpa using h
  | cons v rest ih =>
    intro m h
    rw [List.foldl_cons]
    apply ih
    unfold maxScanStep
    by_cases hc : m < g v
    · rw [if_pos hc]
      omega
    · rwa [if_neg hc]

/-- Claim C10: for every index list and every index-type token — recognized
or not — MaxIndex returns at least 1; and an indexed draw over an empty index
buffer, with the shader built and a healthy allocator, still asks the
assembler for exactly one vertex, which is assembled and uploaded. -/
theorem C10_effective_vertex_count :
    (∀ (indices : List ℕ) (type : ℕ), 1 ≤ MaxIndex indices type) ∧
    (∀ (alloc : ℕ → Bool) (s : BridgeState) (type : ℕ),
      s.shaderOk = true → s.scratch.bufNull = false → (∀ n, alloc n = true) →
      (bridge_DrawElements alloc s [] type).numVerts = 1 ∧
      (bridge_DrawElements alloc s [] type).assembled = 1 ∧
      (bridge_DrawElements alloc s [] type).uploaded = true) := by
  constructor
  · intro indices type
    unfold MaxIndex
    split
    · have := maxScan_nonneg (fun v => ((v % 65536 : ℕ) : ℤ)) indices 0 le_rfl
      omega
    · split
      · have := maxScan_nonneg toInt32 indices 0 le_rfl
        omega
      · split
        · have := maxScan_nonneg (fun v => ((v % 256 : ℕ) : ℤ)) indices 0 le_rfl
          omega
        · omega
  · intro alloc s type hshader hscr halloc
    have hmax : MaxIndex [] type = 1 := by
      unfold MaxIndex
      split <;> [skip; split <;> [skip; split]] <;> simp
    have hnv : (MaxIndex [] type).toNat = 1 := by rw [hmax]; rfl
    rw [bridge_DrawElements, if_neg (by simp [hshader])]
    rw [hnv]
    by_cases hcap : s.scratch.bufCapacity < 1 * ((3 + 3 + 2 + 4) * 4) <;>
      simp [UploadClientArrays, growScratch, hcap, hscr, halloc]

/-- Witness for C10: a concrete MaxIndex evaluation and a concrete indexed
draw over an empty index buffer from a state with a live scratch buffer. -/
theorem C10_witness :
    1 ≤ MaxIndex [3, 1, 2] 0x1403 ∧
    ({ initialBridgeState with scratch := ⟨false, 0⟩ } : BridgeState).shaderOk
      = true ∧
    ({ initialBridgeState with scratch := ⟨false, 0⟩ } : BridgeState).scratch.bufNull
      = false ∧
    (bridge_DrawElements (fun _ => true)
      { initialBridgeState with scratch := ⟨false, 0⟩ } [] 0x1405).numVerts = 1 ∧
    (bridge_DrawElements (fun _ => true)
      { initialBridgeState with scratch := ⟨false, 0⟩ } [] 0x1405).assembled = 1 ∧
    (bridge_DrawElements (fun _ => true)
      { initialBridgeState with scratch := ⟨false, 0⟩ } [] 0x1405).uploaded = true := by
  have h := C10_effective_vertex_count.2 (fun _ => true)
    { initialBridgeState with scratch := ⟨false, 0⟩ } 0x1405 rfl rfl (fun _ => rfl)
  exact ⟨C10_effective_vertex_count.1 [3, 1, 2] 0x1403, rfl, rfl, h.1, h.2.1, h.2.2⟩

end GLESBridge
